import Mathlib

/-!
Verification of the recurrence evaluator in `src/utils.ts` of the weekend
planner repository: the functions `getWeekMonday` and `isDateSupport`.

Embedding conventions.  A JavaScript `Date` is its time value: an integer
number of milliseconds since the Unix epoch (`Int`).  The local
time zone of the runtime is modelled as UTC with no daylight-saving shifts, the setting
under which the test suite of the repository runs (its expectations compare
`toISOString()` outputs); the ECMAScript operations `WeekDay`, `DateFromTime`, `MakeDay`
and `Math.round` are embedded by their exact integer semantics.  All
divisions are written with `/` and `%` on `Int`, which are Euclidean
division and remainder; for the positive divisors used here these agree
with the floor divisions the ECMAScript operations prescribe.
-/

namespace Weekend

/-- Milliseconds in one day (`24 * 60 * 60 * 1000`). -/
def msPerDay : Int := 24 * 60 * 60 * 1000

/-- Milliseconds in one week: the literal `7 * 24 * 60 * 60 * 1000` from
`isDateSupport`. -/
def msPerWeek : Int := 7 * msPerDay

/-- ECMAScript `Day(t)`: the day number containing time value `t`
(floor of `t / msPerDay`; `/` on `Int` is Euclidean division, which is
floor division for the positive divisor `msPerDay`). -/
def dayNumber (t : Int) : Int := t / msPerDay

/-- ECMAScript `TimeWithinDay(t)`: milliseconds elapsed since the most
recent midnight. -/
def timeOfDay (t : Int) : Int := t % msPerDay

/-- JavaScript `Date.prototype.getDay`: weekday with Sunday = 0 … Saturday = 6.
ECMAScript `WeekDay(t) = (Day(t) + 4) modulo 7` (day 0, 1970-01-01, was a
Thursday). -/
def getDay (t : Int) : Int := (dayNumber t + 4) % 7

/-- JavaScript `Date.prototype.getDate`: the day of the month (1-based) of the civil
date containing `t`.  Computed by the standard civil-from-days conversion
(the algorithm of Howard Hinnant) specialised to its day-of-month component; all
intermediate quotients are of non-negative values, where `/` is plain
integer division. -/
def getDate (t : Int) : Int :=
  let z := dayNumber t + 719468
  let era := z / 146097
  let doe := z - era * 146097
  let yoe := (doe - doe / 1460 + doe / 36524 - doe / 146096) / 365
  let doy := doe - (365 * yoe + yoe / 4 - yoe / 100)
  let mp := (5 * doy + 2) / 153
  doy - (153 * mp + 2) / 5 + 1

/-- JavaScript `Date.prototype.setDate(n)` as a value transformer: the time value the
date holds after the call.  ECMAScript computes
`MakeDate(MakeDay(year, month, n), TimeWithinDay(t))`, and
`MakeDay(year, month, n)` is the day number of the first of the current
month plus `n - 1`; the first of the month is `Day(t) - (getDate t - 1)`. -/
def setDate (t n : Int) : Int :=
  (dayNumber t - (getDate t - 1) + (n - 1)) * msPerDay + timeOfDay t

/-- JavaScript `Date.prototype.setHours(0, 0, 0, 0)` as a value transformer: zeroes
the time of day, keeping the day. -/
def setHoursZero (t : Int) : Int := dayNumber t * msPerDay

/-- Day number of the civil date `y-m-d` (days-from-civil conversion,
the algorithm of Hinnant).  Used only to write concrete dates readably. -/
def daysFromCivil (y0 m d : Int) : Int :=
  let y := if m ≤ 2 then y0 - 1 else y0
  let era := y / 400
  let yoe := y - era * 400
  let mp := (m + 9) % 12
  let doy := (153 * mp + 2) / 5 + d - 1
  let doe := yoe * 365 + yoe / 4 - yoe / 100 + doy
  era * 146097 + doe - 719468

/-- The time value of `new Date("y-m-d")`: an ISO date-only string parses
to midnight UTC of that civil date. -/
def mkDate (y m d : Int) : Int := daysFromCivil y m d * msPerDay

/-- Function `getWeekMonday` from `src/utils.ts`:

```
const date = new Date(d);
const day = date.getDay();
const diff = date.getDate() - day + (day === 0 ? -6 : 1);
const monday = new Date(date.setDate(diff));
monday.setHours(0, 0, 0, 0);
return monday;
```
-/
def getWeekMonday (d : Int) : Int :=
  let date := d
  let day := getDay date
  let diff := getDate date - day + (if day = 0 then -6 else 1)
  let monday := setDate date diff
  setHoursZero monday

/-- Interface `RecurringSupportSettings` from `src/types.ts`.  `baseDate` is an ISO
date string in the source; it is modelled by the time value that
`new Date(baseDate)` parses it to. -/
structure RecurringSupportSettings where
  saturday : Bool
  sunday : Bool
  interval : Int
  baseDate : Int
  customBg : Option String

/-- The JavaScript fallback `interval || 1`: the number `0` is the only
falsy `Int`; any other value passes through. -/
def effectiveInterval (i : Int) : Int := if i = 0 then 1 else i

/-- JavaScript `Math.round (num / den)` for a positive denominator, computed exactly:
`Math.round x = ⌊x + 1/2⌋`, and `⌊num/den + 1/2⌋ = ⌊(2*num + den) / (2*den)⌋`.
At the scales `isDateSupport` uses (whole days divided by a week), the
floating-point evaluation never lands close enough to a half-integer for
double rounding to differ from this exact value. -/
def jsRound (num den : Int) : Int := (2 * num + den) / (2 * den)

/-- Function `isDateSupport` from `src/utils.ts`:

```
const { interval, baseDate } = settings;
const startMonday = getWeekMonday(new Date(baseDate));
const targetMonday = getWeekMonday(targetDate);
const diffWeeks = Math.round((targetMonday.getTime() - startMonday.getTime()) / (7 * 24 * 60 * 60 * 1000));
return Math.abs(diffWeeks) % (interval || 1) === 0;
```

JavaScript `%` truncates (the remainder takes the sign of the dividend), which is
`Int.tmod`; the dividend `Math.abs(diffWeeks)` is non-negative. -/
def isDateSupport (targetDate : Int) (settings : RecurringSupportSettings) : Bool :=
  let interval := settings.interval
  let baseDate := settings.baseDate
  let startMonday := getWeekMonday baseDate
  let targetMonday := getWeekMonday targetDate
  let diffWeeks := jsRound (targetMonday - startMonday) msPerWeek
  decide (Int.tmod (Int.natAbs diffWeeks : Int) (effectiveInterval interval) = 0)

/-- The spec side of claim C1, following the words of spec §4.1
`isActiveWeek`: `diffWeeks = round((targetWeek - anchorWeek) / (7 days in
milliseconds))`; result is `abs(diffWeeks) mod intervalWeeks == 0`, with
`intervalWeeks` taken as 1 when the stored interval is falsy.  `mod` here
is mathematical modulus (`Int.emod`). -/
def isActiveWeekSpec (targetDate : Int) (settings : RecurringSupportSettings) : Prop :=
  let anchorWeek := getWeekMonday settings.baseDate
  let targetWeek := getWeekMonday targetDate
  let diffWeeks := jsRound (targetWeek - anchorWeek) msPerWeek
  let intervalWeeks := if settings.interval = 0 then 1 else settings.interval
  |diffWeeks| % intervalWeeks = 0

/-- Offset, in days, from a date back to the Monday of its week, as spec
§4.1 `weekStart` describes it: 6 for Sunday, weekday − 1 otherwise. -/
def mondayOffset (d : Int) : Int := if getDay d = 0 then 6 else getDay d - 1

/-! ### Helper lemmas -/

theorem timeOfDay_nonneg (t : Int) : 0 ≤ timeOfDay t :=
  Int.emod_nonneg t (by decide)

theorem timeOfDay_lt (t : Int) : timeOfDay t < msPerDay :=
  Int.emod_lt_of_pos t (by decide)

theorem dayNumber_mul_add (k r : Int) (h0 : 0 ≤ r) (h1 : r < msPerDay) :
    dayNumber (k * msPerDay + r) = k := by
  unfold dayNumber msPerDay at *
  omega

theorem dayNumber_mul (k : Int) : dayNumber (k * msPerDay) = k := by
  have := dayNumber_mul_add k 0 le_rfl (by decide)
  simpa using this

/-- Closed form of `getWeekMonday`: the `getDate`/`setDate` detour cancels
and the function shifts the day number back by `mondayOffset` and zeroes
the time of day. -/
theorem getWeekMonday_closed (d : Int) :
    getWeekMonday d = (dayNumber d - mondayOffset d) * msPerDay := by
  simp only [getWeekMonday, setDate, setHoursZero, mondayOffset, getDay,
    dayNumber, timeOfDay, msPerDay]
  split_ifs <;> omega

theorem getDay_nonneg (t : Int) : 0 ≤ getDay t :=
  Int.emod_nonneg _ (by decide)

theorem getDay_lt (t : Int) : getDay t < 7 :=
  Int.emod_lt_of_pos _ (by decide)

/-- Function `getWeekMonday` always lands on a Monday. -/
theorem getDay_getWeekMonday (d : Int) : getDay (getWeekMonday d) = 1 := by
  rw [getWeekMonday_closed]
  simp only [mondayOffset, getDay, dayNumber, timeOfDay, msPerDay]
  split_ifs <;> omega

/-- Function `getWeekMonday` always lands on midnight. -/
theorem timeOfDay_getWeekMonday (d : Int) : timeOfDay (getWeekMonday d) = 0 := by
  rw [getWeekMonday_closed]
  simp only [mondayOffset, getDay, dayNumber, timeOfDay, msPerDay]
  split_ifs <;> omega

/-- A time value that is already a Monday at midnight is a fixed point of
`getWeekMonday`. -/
theorem getWeekMonday_fixed (t : Int) (hday : getDay t = 1)
    (hmid : timeOfDay t = 0) : getWeekMonday t = t := by
  rw [getWeekMonday_closed]
  simp only [mondayOffset, getDay, dayNumber, timeOfDay, msPerDay] at *
  split_ifs <;> omega

/-- Shifting a week start by a whole number of weeks lands on a Monday
midnight again, hence is a fixed point of `getWeekMonday`. -/
theorem getWeekMonday_add_weeks (d n : Int) :
    getWeekMonday (getWeekMonday d + n * msPerWeek) = getWeekMonday d + n * msPerWeek := by
  apply getWeekMonday_fixed
  · rw [getWeekMonday_closed]
    simp only [mondayOffset, getDay, dayNumber, timeOfDay, msPerDay, msPerWeek]
    split_ifs <;> omega
  · rw [getWeekMonday_closed]
    simp only [mondayOffset, getDay, dayNumber, timeOfDay, msPerDay, msPerWeek]
    split_ifs <;> omega

/-- JavaScript truncating remainder agrees with the Euclidean remainder on
non-negative dividends, whatever the sign of the divisor. -/
theorem tmod_eq_emod_of_nonneg (a b : Int) (ha : 0 ≤ a) : Int.tmod a b = a % b := by
  rcases le_or_lt 0 b with hb | hb
  · exact Int.tmod_eq_emod ha hb
  · have h1 : Int.tmod a (-(-b)) = Int.tmod a (-b) := Int.tmod_neg a (-b)
    rw [neg_neg] at h1
    rw [h1, Int.tmod_eq_emod ha (by omega), Int.emod_neg]

/-- Rounding an exact multiple of a week recovers the multiplier. -/
theorem jsRound_mul (n : Int) : jsRound (n * msPerWeek) msPerWeek = n := by
  simp only [jsRound, msPerWeek, msPerDay]
  omega

/-- Evaluating `isDateSupport` on the anchor week shifted by `n` whole
weeks: the decision is `|n| tmod (interval || 1) = 0`. -/
theorem isDateSupport_week_offset (s : RecurringSupportSettings) (n : Int) :
    isDateSupport (getWeekMonday s.baseDate + n * msPerWeek) s
      = decide (Int.tmod (Int.natAbs n : Int) (effectiveInterval s.interval) = 0) := by
  simp only [isDateSupport]
  rw [getWeekMonday_add_weeks, add_sub_cancel_left, jsRound_mul]

/-- For a genuine interval `k ≥ 1`, the shifted evaluation is divisibility
of the shift by the interval. -/
theorem isDateSupport_week_offset_iff (s : RecurringSupportSettings) (n : Int)
    (hk : 1 ≤ s.interval) :
    isDateSupport (getWeekMonday s.baseDate + n * msPerWeek) s = true ↔
      n % s.interval = 0 := by
  rw [isDateSupport_week_offset]
  simp only [decide_eq_true_eq, effectiveInterval]
  rw [if_neg (by omega)]
  rw [tmod_eq_emod_of_nonneg _ _ (Int.natCast_nonneg _)]
  constructor
  · intro h
    exact Int.emod_eq_zero_of_dvd (Int.dvd_natAbs.mp (Int.dvd_of_emod_eq_zero h))
  · intro h
    exact Int.emod_eq_zero_of_dvd (Int.dvd_natAbs.mpr (Int.dvd_of_emod_eq_zero h))

/-- Among any `k` consecutive integers there is exactly one multiple of
`k`, phrased with the window `[j, j + k)`. -/
theorem exists_unique_offset (k j : Int) (hk : 1 ≤ k) :
    ∃! i : Int, 0 ≤ i ∧ i < k ∧ (j + i) % k = 0 := by
  have hk0 : (0 : Int) < k := hk
  have hchar : ∀ i : Int, 0 ≤ i → i < k → ((j + i) % k = 0 ↔ i = -j % k) := by
    intro i h0 h1
    constructor
    · intro h
      have h2 : i % k = -j % k := by
        rw [Int.emod_eq_emod_iff_emod_sub_eq_zero]
        have e : i - -j = j + i := by ring
        rw [e, h]
      rw [Int.emod_eq_of_lt h0 h1] at h2
      exact h2
    · intro h
      subst h
      conv_lhs => rw [Int.add_emod]
      rw [Int.emod_emod, ← Int.add_emod]
      simp
  refine ⟨-j % k, ⟨Int.emod_nonneg _ (by omega), Int.emod_lt_of_pos _ hk0, ?_⟩, ?_⟩
  · exact (hchar _ (Int.emod_nonneg _ (by omega)) (Int.emod_lt_of_pos _ hk0)).mpr rfl
  · intro y hy
    exact (hchar y hy.1 hy.2.1).mp hy.2.2

/-! ### State-passing embedding for the mutation claim

The source mutates only freshly allocated `Date` objects.  The following
embedding makes that visible: each JavaScript statement of `getWeekMonday`
is one binding, writes go to the rebinding of the local copy, and the
second component carries the final contents of the argument cell of the caller,
which no statement ever assigns. -/

/-- Embedding of `getWeekMonday` with the `Date` cell of the caller tracked explicitly:
`const date = new Date(d)` reads the cell into a fresh copy,
`date.setDate(diff)` and `monday.setHours(0,0,0,0)` write only the fresh
objects; the pair returns (result, final value of the argument cell). -/
def getWeekMondayST (d : Int) : Int × Int :=
  let date0 := d
  let day := getDay date0
  let diff := getDate date0 - day + (if day = 0 then -6 else 1)
  let date1 := setDate date0 diff
  let monday0 := date1
  let monday1 := setHoursZero monday0
  (monday1, d)

/-- Embedding of `isDateSupport` with the target `Date` cell of the caller and the settings
object tracked explicitly: `new Date(baseDate)` builds a fresh object from
the (immutable) string field, `getWeekMonday(targetDate)` receives the
cell of the caller and hands back its final contents; the settings record is
only destructured. -/
def isDateSupportST (targetDate : Int) (settings : RecurringSupportSettings) :
    Bool × Int × RecurringSupportSettings :=
  let interval := settings.interval
  let baseDate := settings.baseDate
  let startMonday := (getWeekMondayST baseDate).1
  let call := getWeekMondayST targetDate
  let targetMonday := call.1
  let targetFinal := call.2
  let diffWeeks := jsRound (targetMonday - startMonday) msPerWeek
  (decide (Int.tmod (Int.natAbs diffWeeks : Int) (effectiveInterval interval) = 0),
   targetFinal, settings)

/-- Anchor used by the repository test suite: Monday 2023-10-23. -/
def sampleBase : Int := mkDate 2023 10 23

/-- Sample settings with a two-week cycle anchored at `sampleBase`. -/
def sampleSettings2 : RecurringSupportSettings :=
  ⟨true, true, 2, sampleBase, none⟩

/-! ### Claims -/

/-- C1: for every target date and settings, `isDateSupport` returns `true`
iff `abs(round((getWeekMonday target − getWeekMonday anchor) / one week))
mod (interval, taken as 1 when falsy)` is zero — exactly the three-step
algorithm of spec §4.1. -/
theorem isDateSupport_eq_spec_algorithm (targetDate : Int) (s : RecurringSupportSettings) :
    isDateSupport targetDate s = true ↔ isActiveWeekSpec targetDate s := by
  simp only [isDateSupport, isActiveWeekSpec, effectiveInterval, decide_eq_true_eq]
  rw [Int.abs_eq_natAbs, tmod_eq_emod_of_nonneg _ _ (Int.natCast_nonneg _)]

/-- C2: the function `getWeekMonday` returns the Monday of the week of its input, at
midnight: the weekday of the result is Monday (`getDay = 1`), its time of day
is zero, and the day offset subtracted is 6 for Sunday inputs and
weekday − 1 otherwise. -/
theorem getWeekMonday_monday_midnight (d : Int) :
    getDay (getWeekMonday d) = 1 ∧ timeOfDay (getWeekMonday d) = 0 ∧
      getWeekMonday d =
        (dayNumber d - (if getDay d = 0 then 6 else getDay d - 1)) * msPerDay :=
  ⟨getDay_getWeekMonday d, timeOfDay_getWeekMonday d, getWeekMonday_closed d⟩

/-- C3: with interval `k ≥ 1`, any window of `k` consecutive week buckets
(the anchor week shifted by `j, j+1, …, j+k−1` weeks, any `j`) contains
exactly one active week. -/
theorem isDateSupport_periodicity (s : RecurringSupportSettings) (j : Int)
    (hk : 1 ≤ s.interval) :
    ∃! i : Int, 0 ≤ i ∧ i < s.interval ∧
      isDateSupport (getWeekMonday s.baseDate + (j + i) * msPerWeek) s = true := by
  have h := exists_unique_offset s.interval j hk
  simpa only [isDateSupport_week_offset_iff s _ hk] using h

/-- Witness for C3: with the two-week sample settings and the window
starting five weeks before the anchor, exactly one of the two weeks is
active. -/
theorem isDateSupport_periodicity_witness :
    1 ≤ sampleSettings2.interval ∧
      ∃! i : Int, 0 ≤ i ∧ i < sampleSettings2.interval ∧
        isDateSupport (getWeekMonday sampleSettings2.baseDate + (-5 + i) * msPerWeek)
          sampleSettings2 = true :=
  ⟨by decide, isDateSupport_periodicity sampleSettings2 (-5) (by decide)⟩

/-- C4: any target date in the same week bucket as the anchor date is
active for every interval `n ≥ 1`; in particular the anchor date itself
is. -/
theorem isDateSupport_same_week (t : Int) (s : RecurringSupportSettings)
    (hw : getWeekMonday t = getWeekMonday s.baseDate) (_hn : 1 ≤ s.interval) :
    isDateSupport t s = true := by
  simp only [isDateSupport]
  rw [hw, sub_self]
  have h0 : jsRound 0 msPerWeek = 0 := by decide
  rw [h0]
  simp [Int.zero_tmod]

/-- Witness for C4: Wednesday 2023-10-25 lies in the anchor week of the
two-week sample settings and is active. -/
theorem isDateSupport_same_week_witness :
    getWeekMonday (mkDate 2023 10 25) = getWeekMonday sampleSettings2.baseDate ∧
      1 ≤ sampleSettings2.interval ∧
      isDateSupport (mkDate 2023 10 25) sampleSettings2 = true :=
  ⟨by decide, by decide,
    isDateSupport_same_week (mkDate 2023 10 25) sampleSettings2 (by decide) (by decide)⟩

/-- C5: the function `isDateSupport` is symmetric around the anchor week: the week `j`
weeks before the anchor week is active exactly when the week `j` weeks
after it is, for every settings value. -/
theorem isDateSupport_symmetric (s : RecurringSupportSettings) (j : Int) :
    isDateSupport (getWeekMonday s.baseDate - j * msPerWeek) s
      = isDateSupport (getWeekMonday s.baseDate + j * msPerWeek) s := by
  have h1 : getWeekMonday s.baseDate - j * msPerWeek
      = getWeekMonday s.baseDate + -j * msPerWeek := by ring
  rw [h1, isDateSupport_week_offset, isDateSupport_week_offset, Int.natAbs_neg]

/-- C6: the function `getWeekMonday` is idempotent, and every day of a week (each of
the 7 days starting at the Monday of a week, at any time of day) maps to that same
Monday. -/
theorem getWeekMonday_idempotent_stable (d : Int) :
    getWeekMonday (getWeekMonday d) = getWeekMonday d ∧
      ∀ i r : Int, 0 ≤ i → i < 7 → 0 ≤ r → r < msPerDay →
        getWeekMonday (getWeekMonday d + i * msPerDay + r) = getWeekMonday d := by
  constructor
  · exact getWeekMonday_fixed _ (getDay_getWeekMonday d) (timeOfDay_getWeekMonday d)
  · intro i r h0 h1 h2 h3
    rw [getWeekMonday_closed d] at *
    rw [getWeekMonday_closed]
    simp only [mondayOffset, getDay, dayNumber, timeOfDay, msPerDay] at *
    split_ifs at * <;> omega

/-- Witness for C6: idempotence and same-week stability at Thursday
2023-10-26, day offset 3, time of day 5000 ms. -/
theorem getWeekMonday_idempotent_stable_witness :
    getWeekMonday (getWeekMonday (mkDate 2023 10 26)) = getWeekMonday (mkDate 2023 10 26) ∧
      getWeekMonday (getWeekMonday (mkDate 2023 10 26) + 3 * msPerDay + 5000)
        = getWeekMonday (mkDate 2023 10 26) :=
  ⟨(getWeekMonday_idempotent_stable (mkDate 2023 10 26)).1,
    (getWeekMonday_idempotent_stable (mkDate 2023 10 26)).2 3 5000
      (by decide) (by decide) (by decide) (by decide)⟩

/-- C7: totality/safety of the evaluator: the fallback `interval || 1`
never yields a zero modulo divisor (and yields at least 1 on the
non-negative domain, with 0 mapped to 1), and `isDateSupport` always
returns one of the two booleans. -/
theorem evaluator_total (i : Int) :
    effectiveInterval i ≠ 0 ∧ (0 ≤ i → 1 ≤ effectiveInterval i) ∧
      effectiveInterval 0 = 1 ∧
      ∀ (t : Int) (s : RecurringSupportSettings),
        isDateSupport t s = true ∨ isDateSupport t s = false := by
  refine ⟨?_, ?_, rfl, ?_⟩
  · simp only [effectiveInterval]
    split_ifs <;> omega
  · intro h
    simp only [effectiveInterval]
    split_ifs <;> omega
  · intro t s
    cases h : isDateSupport t s
    · exact Or.inr rfl
    · exact Or.inl rfl

/-- Witness for C7 at interval 0: the fallback divisor is at least 1. -/
theorem evaluator_total_witness :
    (0 : Int) ≤ 0 ∧ 1 ≤ effectiveInterval 0 :=
  ⟨by decide, (evaluator_total 0).2.1 (by decide)⟩

/-- C8: the concrete scenarios of the spec and of `src/utils.test.ts`,
with anchor Monday 2023-10-23: interval 2 gives true, false, true on
2023-10-23, 2023-10-30, 2023-11-06; interval 3 gives false on 2023-10-30 and 2023-11-06
and true on 2023-11-13; and `getWeekMonday` sends Tuesday 2023-10-24 and
Sunday 2023-10-29 to 2023-10-23. -/
theorem concrete_scenarios :
    isDateSupport (mkDate 2023 10 23) ⟨true, true, 2, mkDate 2023 10 23, none⟩ = true ∧
      isDateSupport (mkDate 2023 10 30) ⟨true, true, 2, mkDate 2023 10 23, none⟩ = false ∧
      isDateSupport (mkDate 2023 11 6) ⟨true, true, 2, mkDate 2023 10 23, none⟩ = true ∧
      isDateSupport (mkDate 2023 10 30) ⟨true, true, 3, mkDate 2023 10 23, none⟩ = false ∧
      isDateSupport (mkDate 2023 11 6) ⟨true, true, 3, mkDate 2023 10 23, none⟩ = false ∧
      isDateSupport (mkDate 2023 11 13) ⟨true, true, 3, mkDate 2023 10 23, none⟩ = true ∧
      getDay (mkDate 2023 10 24) = 2 ∧
      getWeekMonday (mkDate 2023 10 24) = mkDate 2023 10 23 ∧
      getDay (mkDate 2023 10 29) = 0 ∧
      getWeekMonday (mkDate 2023 10 29) = mkDate 2023 10 23 := by
  decide

/-- C9: neither function mutates its inputs: in the state-passing
embedding the target `Date` cell of the caller and the settings object come back
unchanged, while the computed results agree with the pure functions. -/
theorem no_mutation (t : Int) (s : RecurringSupportSettings) :
    (getWeekMondayST t).2 = t ∧ (getWeekMondayST t).1 = getWeekMonday t ∧
      (isDateSupportST t s).2.1 = t ∧ (isDateSupportST t s).2.2 = s ∧
      (isDateSupportST t s).1 = isDateSupport t s :=
  ⟨rfl, rfl, rfl, rfl, rfl⟩

/-- C10: the recurrence decision reads only the `interval` and `baseDate`
fields of the settings: two settings agreeing on those two fields give the
same result on every target date, whatever their `saturday`, `sunday` and
`customBg` fields. -/
theorem isDateSupport_settings_noninterference (t : Int)
    (s1 s2 : RecurringSupportSettings)
    (hi : s1.interval = s2.interval) (hb : s1.baseDate = s2.baseDate) :
    isDateSupport t s1 = isDateSupport t s2 := by
  simp only [isDateSupport, hi, hb]

/-- Witness for C10: flipping both weekday flags and adding a custom
background leaves the decision on 2023-11-06 unchanged. -/
theorem isDateSupport_settings_noninterference_witness :
    RecurringSupportSettings.interval ⟨true, true, 2, sampleBase, none⟩
        = RecurringSupportSettings.interval ⟨false, false, 2, sampleBase, some ("bg")⟩ ∧
      RecurringSupportSettings.baseDate ⟨true, true, 2, sampleBase, none⟩
        = RecurringSupportSettings.baseDate ⟨false, false, 2, sampleBase, some ("bg")⟩ ∧
      isDateSupport (mkDate 2023 11 6) ⟨true, true, 2, sampleBase, none⟩
        = isDateSupport (mkDate 2023 11 6) ⟨false, false, 2, sampleBase, some ("bg")⟩ :=
  ⟨rfl, rfl,
    isDateSupport_settings_noninterference (mkDate 2023 11 6)
      ⟨true, true, 2, sampleBase, none⟩ ⟨false, false, 2, sampleBase, some ("bg")⟩
      rfl rfl⟩

end Weekend
